import Mathlib

/-!
Shallow embedding of the business-rule layer of `src/src/soap_service.py`
(CumRoad SOAP service).  The persistence layer (sqlite) is modelled as
in-memory lists kept in row-insertion (rowid) order; `CURRENT_TIMESTAMP`
is an explicit `now : Nat` argument; SHA-256 password hashing and the
JWT HMAC signature are abstract deterministic functions passed as
parameters (`hash : String → String`, `sign : TokenPayload → String`).
Python truthiness of optional strings (`not s` ⟺ `s` is `None` or `""`)
is modelled by comparing `Option.getD "" · = ""`; truthiness of optional
numbers (`not x` ⟺ `None` or `0`) by `Option.getD 0 · = 0`.
Mutating handlers return `Except Fault α × DB`, where every fault path
returns the store unchanged, exactly mirroring the source, which raises
the SOAP fault before executing any INSERT/UPDATE/DELETE statement.
-/

namespace CumRoad

/-- Fault data as passed to `_raise_soap_fault(status, title, detail, code, field)`. -/
structure Fault where
  status : Nat
  title : String
  detail : String
  code : Nat
  fieldName : Option String
deriving Repr, DecidableEq

def authRequiredFault : Fault :=
  ⟨401, "Authentication Required", "Authentication token is required", 2001, none⟩

def invalidTokenFault : Fault :=
  ⟨401, "Invalid Token", "Authentication token is invalid or expired", 2002, none⟩

def unauthorizedFault : Fault :=
  ⟨403, "Unauthorized", "Not authorized to perform this action", 2003, none⟩

def validationFault (detail : String) : Fault :=
  ⟨400, "Validation Error", detail, 1001, none⟩

def invalidPasswordFault : Fault :=
  ⟨422, "Invalid Password", "Password must be at least 8 characters long", 1002, some "password"⟩

def emailRegisteredFault : Fault :=
  ⟨409, "Email Already Registered", "The email address is already registered", 1003, some "email"⟩

def userNotFoundFault : Fault :=
  ⟨404, "Resource Not Found", "The requested user was not found", 3001, none⟩

def productNotFoundFault : Fault :=
  ⟨404, "Resource Not Found", "The requested product was not found", 3001, none⟩

def orderNotFoundFault : Fault :=
  ⟨404, "Resource Not Found", "The requested order was not found", 3001, none⟩

def invalidCredentialsFault : Fault :=
  ⟨401, "Invalid Credentials", "Invalid email or password", 2001, none⟩

/-- An uncaught Python exception surfaces as a server-side SOAP fault. -/
def internalFault (detail : String) : Fault := ⟨500, "Internal Error", detail, 0, none⟩

/-- Decoded JWT payload built by `AuthManager.generate_token`. -/
structure TokenPayload where
  user_id : Nat
  email : String
  exp : Nat
deriving Repr, DecidableEq

/-- A JWT: its payload together with its HMAC signature string. -/
structure Jwt where
  payload : TokenPayload
  sig : String
deriving Repr, DecidableEq

/-- `AuthManager.generate_token`: payload {user_id, email, exp = now + 86400}, signed. -/
def generate_token (sign : TokenPayload → String) (now : Nat)
    (user_id : Nat) (email : String) : Jwt :=
  let p : TokenPayload := ⟨user_id, email, now + 86400⟩
  ⟨p, sign p⟩

/-- `AuthManager.verify_token`: `jwt.decode` succeeds iff the signature matches
and the token is not expired; both failure modes collapse to `none`. -/
def verify_token (sign : TokenPayload → String) (now : Nat) (t : Jwt) :
    Option TokenPayload :=
  if t.sig = sign t.payload ∧ now < t.payload.exp then some t.payload else none

/-- `AuthManager.verify_password(password, hash)`: recompute and compare. -/
def verify_password (hash : String → String) (password hashed : String) : Bool :=
  hash password == hashed

/-- `_authenticate_user`: missing token → Authentication Required;
undecodable token → Invalid Token; otherwise the decoded payload. -/
def authenticate_user (sign : TokenPayload → String) (now : Nat)
    (token : Option Jwt) : Except Fault TokenPayload :=
  match token with
  | none => .error authRequiredFault
  | some t =>
    match verify_token sign now t with
    | none => .error invalidTokenFault
    | some p => .ok p

/-- Row of the `users` table. -/
structure UserRow where
  id : Nat
  email : String
  password_hash : String
  name : String
  role : String
  created_at : Nat
  updated_at : Nat
deriving Repr, DecidableEq

/-- Row of the `products` table (price REAL modelled as a rational). -/
structure ProductRow where
  id : Nat
  name : String
  description : String
  price : ℚ
  image_url : String
  user_id : Nat
  created_at : Nat
  updated_at : Nat
deriving Repr, DecidableEq

/-- Row of the `orders` table. -/
structure OrderRow where
  id : Nat
  user_id : Nat
  product_id : Nat
  quantity : Int
  total_price : ℚ
  status : String
  created_at : Nat
  updated_at : Nat
deriving Repr, DecidableEq

/-- The sqlite store: tables in rowid order plus the AUTOINCREMENT counters. -/
structure DB where
  users : List UserRow
  products : List ProductRow
  orders : List OrderRow
  nextUserId : Nat
  nextProductId : Nat
  nextOrderId : Nat
deriving Repr, DecidableEq

/-- The `User` complex model returned to clients (no password hash). -/
structure UserView where
  id : Nat
  email : String
  name : String
  role : String
  created_at : Nat
  updated_at : Nat
deriving Repr, DecidableEq

def userView (u : UserRow) : UserView :=
  ⟨u.id, u.email, u.name, u.role, u.created_at, u.updated_at⟩

/-- The `UserWithToken` model returned by `Login`. -/
structure UserWithTokenView where
  id : Nat
  email : String
  name : String
  role : String
  created_at : Nat
  updated_at : Nat
  token : Jwt
deriving Repr, DecidableEq

/-- Python string truthiness default: `None` and `""` both behave as `""`. -/
def ostr (o : Option String) : String := o.getD ""

/-- Text of an email before its first `'@'` (Python `email.split('@')[0]`). -/
def emailLocalChars : List Char → List Char
  | [] => []
  | c :: cs => if c = '@' then [] else c :: emailLocalChars cs

def emailLocalPart (s : String) : String := ⟨emailLocalChars s.data⟩

/-- `SELECT ... FROM users WHERE id = ?` with `fetchone` (`_get_user_by_id`). -/
def get_user_by_id (db : DB) (user_id : Nat) : Option UserRow :=
  db.users.find? (fun u => u.id == user_id)

/-- `UserInput` complex model (spyne fields default to `None`). -/
structure UserInput where
  email : Option String
  password : Option String
  name : Option String
deriving Repr, DecidableEq

/-- `GetAllUsers`. -/
def GetAllUsers (db : DB) : List UserView := db.users.map userView

/-- `CreateUser`: presence check, password length ≥ 8, duplicate-email check
(first matching row, case-sensitive `=`), then INSERT with role `'user'` and
name defaulted to the email's local part, finally re-read by the fresh rowid. -/
def CreateUser (hash : String → String) (now : Nat) (input : UserInput)
    (db : DB) : Except Fault UserView × DB :=
  if ostr input.email = "" ∨ ostr input.password = "" then
    (.error (validationFault "Email and password are required"), db)
  else if (ostr input.password).length < 8 then
    (.error invalidPasswordFault, db)
  else if (db.users.find? (fun u => u.email == ostr input.email)).isSome then
    (.error emailRegisteredFault, db)
  else
    let name := if ostr input.name = "" then emailLocalPart (ostr input.email)
                else ostr input.name
    let row : UserRow :=
      ⟨db.nextUserId, ostr input.email, hash (ostr input.password), name, "user", now, now⟩
    let db' : DB := { db with users := db.users ++ [row], nextUserId := db.nextUserId + 1 }
    match get_user_by_id db' db.nextUserId with
    | some u => (.ok (userView u), db')
    | none => (.error (internalFault "row not found after INSERT"), db')

/-- `GetUserById`. -/
def GetUserById (db : DB) (user_id : Nat) : Except Fault UserView :=
  match get_user_by_id db user_id with
  | none => .error userNotFoundFault
  | some u => .ok (userView u)

/-- `UserUpdateInput` complex model. -/
structure UserUpdateInput where
  name : Option String
  password : Option String
deriving Repr, DecidableEq

/-- The row mutation performed by `UpdateUser`'s dynamic `UPDATE users SET …`:
name if truthy, hashed password if truthy, `updated_at` refreshed when any
field was set. -/
def updateUserRow (hash : String → String) (now : Nat) (upd : UserUpdateInput)
    (u : UserRow) : UserRow :=
  let u1 := if ostr upd.name = "" then u else { u with name := ostr upd.name }
  let u2 := if ostr upd.password = "" then u1
            else { u1 with password_hash := hash (ostr upd.password) }
  if ostr upd.name = "" ∧ ostr upd.password = "" then u2
  else { u2 with updated_at := now }

/-- `UpdateUser`: authenticate, 404 on missing target, then the authorization
check exactly as written in the source —
`if payload['user_id'] != user_id and user_data['role'] != 'admin'` —
note that `user_data` is the TARGET user's row, so the role consulted is the
target's, not the caller's.  Then the password length check and the UPDATE. -/
def UpdateUser (hash : String → String) (sign : TokenPayload → String) (now : Nat)
    (user_id : Nat) (upd : UserUpdateInput) (token : Option Jwt)
    (db : DB) : Except Fault UserView × DB :=
  match authenticate_user sign now token with
  | .error f => (.error f, db)
  | .ok payload =>
    match get_user_by_id db user_id with
    | none => (.error userNotFoundFault, db)
    | some target =>
      if payload.user_id ≠ user_id ∧ target.role ≠ "admin" then
        (.error unauthorizedFault, db)
      else if ostr upd.password ≠ "" ∧ (ostr upd.password).length < 8 then
        (.error invalidPasswordFault, db)
      else
        let users' := db.users.map
          (fun u => if u.id == user_id then updateUserRow hash now upd u else u)
        let db' : DB := { db with users := users' }
        match get_user_by_id db' user_id with
        | some u => (.ok (userView u), db')
        | none => (.error (internalFault "row not found after UPDATE"), db')

/-- `DeleteUser`: same authentication, 404 and authorization checks as
`UpdateUser` (again comparing the TARGET's role against `'admin'`),
then `DELETE FROM users WHERE id = ?`. -/
def DeleteUser (sign : TokenPayload → String) (now : Nat)
    (user_id : Nat) (token : Option Jwt) (db : DB) : Except Fault Unit × DB :=
  match authenticate_user sign now token with
  | .error f => (.error f, db)
  | .ok payload =>
    match get_user_by_id db user_id with
    | none => (.error userNotFoundFault, db)
    | some target =>
      if payload.user_id ≠ user_id ∧ target.role ≠ "admin" then
        (.error unauthorizedFault, db)
      else
        (.ok (), { db with users := db.users.filter (fun u => !(u.id == user_id)) })

/-- `LoginInput` complex model. -/
structure LoginInput where
  email : Option String
  password : Option String
deriving Repr, DecidableEq

/-- `Login`: presence check, lookup by email, password verification, then a
fresh token for the stored row's id and email.  Read-only. -/
def Login (hash : String → String) (sign : TokenPayload → String) (now : Nat)
    (credentials : LoginInput) (db : DB) : Except Fault UserWithTokenView :=
  if ostr credentials.email = "" ∨ ostr credentials.password = "" then
    .error (validationFault "Email and password are required")
  else
    match db.users.find? (fun u => u.email == ostr credentials.email) with
    | none => .error invalidCredentialsFault
    | some row =>
      if verify_password hash (ostr credentials.password) row.password_hash then
        .ok ⟨row.id, row.email, row.name, row.role, row.created_at, row.updated_at,
             generate_token sign now row.id row.email⟩
      else .error invalidCredentialsFault

/-- `Logout`: merely validates the token. -/
def Logout (sign : TokenPayload → String) (now : Nat) (token : Option Jwt) :
    Except Fault Unit :=
  match authenticate_user sign now token with
  | .error f => .error f
  | .ok _ => .ok ()

/-- `ProductInput` complex model. -/
structure ProductInput where
  name : Option String
  description : Option String
  price : Option ℚ
  image_url : Option String
deriving Repr, DecidableEq

/-- `ProductUpdateInput` complex model. -/
structure ProductUpdateInput where
  name : Option String
  description : Option String
  price : Option ℚ
  image_url : Option String
deriving Repr, DecidableEq

/-- Python numeric truthiness default: `None` and `0` both behave as `0`. -/
def onum (o : Option ℚ) : ℚ := o.getD 0

/-- `SELECT ... FROM products WHERE id = ?` with `fetchone`. -/
def get_product_by_id (db : DB) (product_id : Nat) : Option ProductRow :=
  db.products.find? (fun p => p.id == product_id)

/-- `GetAllProducts`. -/
def GetAllProducts (db : DB) : List ProductRow := db.products

/-- `CreateProduct`: authenticate, then
`if not product_input.name or not product_input.price` — a missing or empty
name, and a missing or ZERO price, are rejected (Python falsiness); any other
price value, negative included, passes.  Then INSERT with
`description or ''`, `image_url or ''`, owner = the caller's token user_id,
finally re-read by the fresh rowid. -/
def CreateProduct (sign : TokenPayload → String) (now : Nat)
    (input : ProductInput) (token : Option Jwt) (db : DB) :
    Except Fault ProductRow × DB :=
  match authenticate_user sign now token with
  | .error f => (.error f, db)
  | .ok payload =>
    if ostr input.name = "" ∨ onum input.price = 0 then
      (.error (validationFault "Name and price are required"), db)
    else
      let row : ProductRow :=
        ⟨db.nextProductId, ostr input.name, ostr input.description, onum input.price,
         ostr input.image_url, payload.user_id, now, now⟩
      let db' : DB := { db with products := db.products ++ [row],
                                nextProductId := db.nextProductId + 1 }
      match get_product_by_id db' db.nextProductId with
      | some p => (.ok p, db')
      | none => (.error (internalFault "row not found after INSERT"), db')

/-- `GetProductById`. -/
def GetProductById (db : DB) (product_id : Nat) : Except Fault ProductRow :=
  match get_product_by_id db product_id with
  | none => .error productNotFoundFault
  | some p => .ok p

/-- The row mutation performed by `UpdateProduct`'s dynamic `UPDATE … SET …`:
name if truthy, description if `is not None`, price if truthy (nonzero),
image_url if `is not None`; `updated_at` refreshed when any field was set. -/
def updateProductRow (now : Nat) (upd : ProductUpdateInput) (p : ProductRow) :
    ProductRow :=
  let p1 := if ostr upd.name = "" then p else { p with name := ostr upd.name }
  let p2 := match upd.description with
            | some d => { p1 with description := d }
            | none => p1
  let p3 := if onum upd.price = 0 then p2 else { p2 with price := onum upd.price }
  let p4 := match upd.image_url with
            | some u => { p3 with image_url := u }
            | none => p3
  if ostr upd.name = "" ∧ upd.description = none ∧ onum upd.price = 0 ∧
     upd.image_url = none then p4
  else { p4 with updated_at := now }

/-- `UpdateProduct`: authenticate, 404 on missing product, Unauthorized unless
the product's `user_id` equals the caller's token user_id (no admin override),
then the UPDATE and a re-read. -/
def UpdateProduct (sign : TokenPayload → String) (now : Nat)
    (product_id : Nat) (upd : ProductUpdateInput) (token : Option Jwt) (db : DB) :
    Except Fault ProductRow × DB :=
  match authenticate_user sign now token with
  | .error f => (.error f, db)
  | .ok payload =>
    match get_product_by_id db product_id with
    | none => (.error productNotFoundFault, db)
    | some row =>
      if row.user_id ≠ payload.user_id then
        (.error unauthorizedFault, db)
      else
        let products' := db.products.map
          (fun p => if p.id == product_id then updateProductRow now upd p else p)
        let db' : DB := { db with products := products' }
        match get_product_by_id db' product_id with
        | some p => (.ok p, db')
        | none => (.error (internalFault "row not found after UPDATE"), db')

/-- `DeleteProduct`: authenticate, 404, strict-ownership check, DELETE. -/
def DeleteProduct (sign : TokenPayload → String) (now : Nat)
    (product_id : Nat) (token : Option Jwt) (db : DB) : Except Fault Unit × DB :=
  match authenticate_user sign now token with
  | .error f => (.error f, db)
  | .ok payload =>
    match get_product_by_id db product_id with
    | none => (.error productNotFoundFault, db)
    | some row =>
      if row.user_id ≠ payload.user_id then
        (.error unauthorizedFault, db)
      else
        (.ok (), { db with products := db.products.filter (fun p => !(p.id == product_id)) })

/-- An `Order` result row: the order joined with its product snapshot. -/
structure OrderView where
  id : Nat
  user_id : Nat
  product_id : Nat
  quantity : Int
  total_price : ℚ
  status : String
  created_at : Nat
  updated_at : Nat
  product : ProductRow
deriving Repr, DecidableEq

/-- The inner `JOIN products p ON o.product_id = p.id` applied to one order:
`none` when the referenced product does not exist (the row is dropped). -/
def orderJoin (products : List ProductRow) (o : OrderRow) : Option OrderView :=
  (products.find? (fun p => p.id == o.product_id)).map (fun p =>
    ⟨o.id, o.user_id, o.product_id, o.quantity, o.total_price, o.status,
     o.created_at, o.updated_at, p⟩)

/-- `SELECT o.…, p.… FROM orders o JOIN products p … WHERE o.id = ?` with
`fetchone` (order ids are unique, so the first id match decides the row). -/
def getOrderJoined (db : DB) (order_id : Nat) : Option OrderView :=
  (db.orders.find? (fun o => o.id == order_id)).bind (orderJoin db.products)

/-- `OrderInput` complex model. -/
structure OrderInput where
  product_id : Option Nat
  quantity : Option Int
deriving Repr, DecidableEq

/-- `OrderUpdateInput` complex model. -/
structure OrderUpdateInput where
  quantity : Option Int
  status : Option String
deriving Repr, DecidableEq

/-- `GetAllOrders`: authenticate, then return exactly the caller's own order
rows joined with their products (`WHERE o.user_id = ?`). -/
def GetAllOrders (sign : TokenPayload → String) (now : Nat)
    (token : Option Jwt) (db : DB) : Except Fault (List OrderView) :=
  match authenticate_user sign now token with
  | .error f => .error f
  | .ok payload =>
    .ok (db.orders.filterMap (fun o =>
      if o.user_id == payload.user_id then orderJoin db.products o else none))

/-- `CreateOrder`: authenticate;
`if not order_input.product_id or not order_input.quantity or order_input.quantity < 1`
rejects a missing/zero product id and a missing/zero/negative quantity;
404 when the product does not exist; `total_price = product.price * quantity`
from the product's price as currently stored; INSERT with status `'pending'`;
finally the joined re-read by the fresh rowid. -/
def CreateOrder (sign : TokenPayload → String) (now : Nat)
    (input : OrderInput) (token : Option Jwt) (db : DB) :
    Except Fault OrderView × DB :=
  match authenticate_user sign now token with
  | .error f => (.error f, db)
  | .ok payload =>
    if input.product_id.getD 0 = 0 ∨ input.quantity.getD 0 = 0 ∨
       input.quantity.getD 0 < 1 then
      (.error (validationFault "Product ID and quantity (>= 1) are required"), db)
    else
      match get_product_by_id db (input.product_id.getD 0) with
      | none => (.error productNotFoundFault, db)
      | some prod =>
        let q := input.quantity.getD 0
        let row : OrderRow :=
          ⟨db.nextOrderId, payload.user_id, input.product_id.getD 0, q,
           prod.price * (q : ℚ), "pending", now, now⟩
        let db' : DB := { db with orders := db.orders ++ [row],
                                  nextOrderId := db.nextOrderId + 1 }
        match getOrderJoined db' db.nextOrderId with
        | some v => (.ok v, db')
        | none => (.error (internalFault "row not found after INSERT"), db')

/-- `GetOrderById`: authenticate, then
`WHERE o.id = ? AND o.user_id = ?` — an order owned by another user and a
nonexistent order both fall through to the very same Resource Not Found
fault; no ownership information is revealed. -/
def GetOrderById (sign : TokenPayload → String) (now : Nat)
    (order_id : Nat) (token : Option Jwt) (db : DB) : Except Fault OrderView :=
  match authenticate_user sign now token with
  | .error f => .error f
  | .ok payload =>
    match (db.orders.find? (fun o => o.id == order_id && o.user_id == payload.user_id)).bind
        (orderJoin db.products) with
    | none => .error orderNotFoundFault
    | some v => .ok v

/-- The row mutation performed by `UpdateOrder`'s dynamic `UPDATE … SET …`,
given the pre-read row's `product_id` and the current products table:
a truthy quantity ≥ 1 is applied and, when the product still exists,
`total_price` is recomputed from the product's CURRENT price; a truthy
status is applied only when it is one of the three enumerated values;
`updated_at` refreshed when any field was set. -/
def updateOrderRow (now : Nat) (products : List ProductRow)
    (preProductId : Nat) (upd : OrderUpdateInput) (o : OrderRow) : OrderRow :=
  let q := upd.quantity.getD 0
  let qValid := ¬ q = 0 ∧ 1 ≤ q
  let s := ostr upd.status
  let sValid := ¬ s = "" ∧ (s = "pending" ∨ s = "completed" ∨ s = "cancelled")
  let o1 := if qValid then
      { o with quantity := q,
               total_price := match products.find? (fun p => p.id == preProductId) with
                              | some p => p.price * (q : ℚ)
                              | none => o.total_price }
    else o
  let o2 := if sValid then { o1 with status := s } else o1
  if qValid ∨ sValid then { o2 with updated_at := now } else o2

/-- `UpdateOrder`: authenticate, 404 on missing order, Unauthorized unless the
order's `user_id` equals the caller's token user_id (no admin override); an
invalid quantity (missing, zero, or < 1) and an invalid status (missing or
outside {pending, completed, cancelled}) are silently dropped, never faulted;
then the UPDATE and the joined re-read. -/
def UpdateOrder (sign : TokenPayload → String) (now : Nat)
    (order_id : Nat) (upd : OrderUpdateInput) (token : Option Jwt) (db : DB) :
    Except Fault OrderView × DB :=
  match authenticate_user sign now token with
  | .error f => (.error f, db)
  | .ok payload =>
    match db.orders.find? (fun o => o.id == order_id) with
    | none => (.error orderNotFoundFault, db)
    | some row =>
      if row.user_id ≠ payload.user_id then
        (.error unauthorizedFault, db)
      else
        let orders' := db.orders.map (fun o =>
          if o.id == order_id then updateOrderRow now db.products row.product_id upd o else o)
        let db' : DB := { db with orders := orders' }
        match getOrderJoined db' order_id with
        | some v => (.ok v, db')
        | none => (.error (internalFault "row not found after UPDATE"), db')

/-- `DeleteOrder`: authenticate, 404, strict-ownership check, DELETE. -/
def DeleteOrder (sign : TokenPayload → String) (now : Nat)
    (order_id : Nat) (token : Option Jwt) (db : DB) : Except Fault Unit × DB :=
  match authenticate_user sign now token with
  | .error f => (.error f, db)
  | .ok payload =>
    match db.orders.find? (fun o => o.id == order_id) with
    | none => (.error orderNotFoundFault, db)
    | some row =>
      if row.user_id ≠ payload.user_id then
        (.error unauthorizedFault, db)
      else
        (.ok (), { db with orders := db.orders.filter (fun o => !(o.id == order_id)) })

/-- Invariant of §3: no two live users share an email. -/
def EmailsNodup (db : DB) : Prop :=
  db.users.Pairwise (fun a b => a.email ≠ b.email)

/-! Concrete instantiations of the abstract hashing and signing capabilities,
used to evaluate the operations on concrete stores. -/

def sign0 : TokenPayload → String := fun p => toString p.user_id ++ "#" ++ p.email

def hash0 : String → String := fun s => s ++ "#h"

/-- A token as issued by `Login` at time 0 under `sign0`. -/
def jwtFor (uid : Nat) (email : String) : Jwt := generate_token sign0 0 uid email

/-- Store with an admin user (id 1) and a plain user (id 2). -/
def dbTargetAdmin : DB :=
  ⟨[⟨1, "admin@x.com", "h1", "Admin", "admin", 0, 0⟩,
    ⟨2, "u@x.com", "h2", "U", "user", 0, 0⟩], [], [], 3, 1, 1⟩

/-- Store with a plain user (id 1) and an admin user (id 2). -/
def dbCallerAdmin : DB :=
  ⟨[⟨1, "a@x.com", "h1", "A", "user", 0, 0⟩,
    ⟨2, "b@x.com", "h2", "B", "admin", 0, 0⟩], [], [], 3, 1, 1⟩

/-- Store with one registered user and no products. -/
def dbOneUser : DB :=
  ⟨[⟨1, "a@x.com", "h1", "A", "user", 0, 0⟩], [], [], 2, 1, 1⟩

/-- Store with two users, one product (id 1, price 10, owner 1) and one
order (id 1, owner 1, product 1, quantity 2, total 20, pending). -/
def dbShop : DB :=
  ⟨[⟨1, "a@x.com", "h1", "A", "user", 0, 0⟩,
    ⟨2, "b@x.com", "h2", "B", "user", 0, 0⟩],
   [⟨1, "Widget", "", 10, "", 1, 0, 0⟩],
   [⟨1, 1, 1, 2, 20, "pending", 0, 0⟩], 3, 2, 2⟩

/-- `dbShop` plus one extra order owned by user 2: user 1's rows agree. -/
def dbShopNoisy : DB :=
  ⟨[⟨1, "a@x.com", "h1", "A", "user", 0, 0⟩,
    ⟨2, "b@x.com", "h2", "B", "user", 0, 0⟩],
   [⟨1, "Widget", "", 10, "", 1, 0, 0⟩],
   [⟨1, 1, 1, 2, 20, "pending", 0, 0⟩,
    ⟨5, 2, 1, 1, 10, "pending", 0, 0⟩], 3, 2, 6⟩

/-- Order row created by `CreateOrder(product_id 1, quantity 3)` on `dbShop` at time 4. -/
def newOrderRow : OrderRow := ⟨2, 1, 1, 3, (10 : ℚ) * ((3 : Int) : ℚ), "pending", 4, 4⟩

/-- `dbShop` after that CreateOrder. -/
def dbShopAfterCreate : DB :=
  { dbShop with orders := dbShop.orders ++ [newOrderRow], nextOrderId := 3 }

/-- The order view returned by that CreateOrder. -/
def newOrderView : OrderView :=
  ⟨2, 1, 1, 3, (10 : ℚ) * ((3 : Int) : ℚ), "pending", 4, 4, ⟨1, "Widget", "", 10, "", 1, 0, 0⟩⟩

/-- Order 1 of `dbShop` after `UpdateOrder(quantity 5)` by its owner at time 9. -/
def updOrderRow : OrderRow := ⟨1, 1, 1, 5, (10 : ℚ) * ((5 : Int) : ℚ), "pending", 0, 9⟩

/-- `dbShop` after that UpdateOrder. -/
def dbShopAfterUpdate : DB := { dbShop with orders := [updOrderRow] }

/-- The order view returned by that UpdateOrder. -/
def updOrderView : OrderView :=
  ⟨1, 1, 1, 5, (10 : ℚ) * ((5 : Int) : ℚ), "pending", 0, 9, ⟨1, "Widget", "", 10, "", 1, 0, 0⟩⟩

/-! Helper lemmas about list lookups. -/

/-- `find?` skips a prefix in which nothing matches. -/
theorem find?_append_none {α : Type} (p : α → Bool) (l₁ l₂ : List α)
    (h : l₁.find? p = none) : (l₁ ++ l₂).find? p = l₂.find? p := by
  rw [List.find?_append, h, Option.none_or]

/-- Updating, via `map`, exactly the rows whose key matches, with a
key-preserving mutation, commutes with `find?` on that key. -/
theorem find?_id_map {α : Type} (keyOf : α → Nat) (k : Nat) (g : α → α)
    (hg : ∀ a, keyOf (g a) = keyOf a) (l : List α) :
    (l.map (fun a => if keyOf a == k then g a else a)).find? (fun a => keyOf a == k)
      = (l.find? (fun a => keyOf a == k)).map (fun a => if keyOf a == k then g a else a) := by
  rw [List.find?_map]
  have hfe : ((fun a => keyOf a == k) ∘ fun a => if keyOf a == k then g a else a)
      = (fun a => keyOf a == k) := by
    funext a
    by_cases h : keyOf a == k
    · simp [Function.comp, h, hg]
    · simp [Function.comp, h]
  rw [hfe]

/-! Field-preservation facts about the row-mutation helpers. -/

theorem updateUserRow_email (hash : String → String) (now : Nat)
    (upd : UserUpdateInput) (u : UserRow) :
    (updateUserRow hash now upd u).email = u.email := by
  unfold updateUserRow
  split <;> split <;> split <;> rfl

theorem updateUserRow_id (hash : String → String) (now : Nat)
    (upd : UserUpdateInput) (u : UserRow) :
    (updateUserRow hash now upd u).id = u.id := by
  unfold updateUserRow
  split <;> split <;> split <;> rfl

theorem updateProductRow_frame (now : Nat) (upd : ProductUpdateInput) (p : ProductRow) :
    (updateProductRow now upd p).id = p.id ∧
    (updateProductRow now upd p).user_id = p.user_id ∧
    (updateProductRow now upd p).created_at = p.created_at := by
  unfold updateProductRow
  rcases upd.description with _ | d <;> rcases upd.image_url with _ | u <;>
    split_ifs <;> exact ⟨rfl, rfl, rfl⟩

theorem updateOrderRow_id (now : Nat) (products : List ProductRow)
    (prePid : Nat) (upd : OrderUpdateInput) (o : OrderRow) :
    (updateOrderRow now products prePid upd o).id = o.id := by
  simp only [updateOrderRow]
  split_ifs <;> rfl

theorem updateOrderRow_product_id (now : Nat) (products : List ProductRow)
    (prePid : Nat) (upd : OrderUpdateInput) (o : OrderRow) :
    (updateOrderRow now products prePid upd o).product_id = o.product_id := by
  simp only [updateOrderRow]
  split_ifs <;> rfl

/-- C1: the claim states that UpdateUser and DeleteUser succeed exactly when
the caller is the target or the CALLER's role is admin, the override being
decided by the caller's role and never by the target's.  The code instead
tests the TARGET's role (`user_data['role'] != 'admin'`): here the plain user
with id 2 successfully deletes the admin user with id 1 (the claim demands
Unauthorized), and in a store where the CALLER (id 2) is the admin and the
target (id 1) is a plain user, UpdateUser by the admin yields Unauthorized
(the claim demands success). -/
theorem c1_admin_override_uses_target_role :
    (DeleteUser sign0 5 1 (some (jwtFor 2 "u@x.com")) dbTargetAdmin).1.isOk = true ∧
    (DeleteUser sign0 5 1 (some (jwtFor 2 "u@x.com")) dbTargetAdmin).2.users
      = [⟨2, "u@x.com", "h2", "U", "user", 0, 0⟩] ∧
    (UpdateUser hash0 sign0 5 1 ⟨some "NewName", none⟩
        (some (jwtFor 2 "b@x.com")) dbCallerAdmin).1 = .error unauthorizedFault :=
  ⟨rfl, rfl, rfl⟩

/-- C9: for an authenticated caller, GetOrderById on an order id that no order
owned by the caller carries — be it an existing order of ANOTHER user or an
id with no order at all — yields the one Resource Not Found fault, never
Unauthorized, so the response does not reveal whether a foreign order with
that id exists. -/
theorem c9_get_order_by_id_hides_foreign_orders (sign : TokenPayload → String)
    (now : Nat) (order_id : Nat) (token : Option Jwt) (db : DB) (payload : TokenPayload)
    (hauth : authenticate_user sign now token = .ok payload)
    (hno : ∀ o ∈ db.orders, o.id = order_id → o.user_id ≠ payload.user_id) :
    GetOrderById sign now order_id token db = .error orderNotFoundFault := by
  unfold GetOrderById
  rw [hauth]
  dsimp only
  have hf : db.orders.find? (fun o => o.id == order_id && o.user_id == payload.user_id) = none := by
    apply List.find?_eq_none.mpr
    intro o ho
    simp only [Bool.and_eq_true, beq_iff_eq, not_and]
    intro h1 h2
    exact hno o ho h1 h2
  rw [hf]
  rfl

/-- C9 witness: in `dbShop`, order 1 exists and belongs to user 1; the
authenticated user 2 asking for it receives exactly the Resource Not Found
fault. -/
theorem c9_witness :
    GetOrderById sign0 0 1 (some (jwtFor 2 "b@x.com")) dbShop = .error orderNotFoundFault :=
  c9_get_order_by_id_hides_foreign_orders sign0 0 1 (some (jwtFor 2 "b@x.com")) dbShop
    ⟨2, "b@x.com", 86400⟩ rfl (by decide)

/-- C3 counterexample: the claim demands that every price that is not
strictly positive be rejected with a Validation Error and no row written;
but the code only tests Python falsiness (`not product_input.price`), so an
authenticated CreateProduct with price −5 SUCCEEDS and a product row with
price −5 is written. -/
theorem c3_counterexample :
    ((CreateProduct sign0 0 ⟨some "Widget", none, some (-5 : ℚ), none⟩
        (some (jwtFor 1 "a@x.com")) dbOneUser).1).isOk = true ∧
    (CreateProduct sign0 0 ⟨some "Widget", none, some (-5 : ℚ), none⟩
        (some (jwtFor 1 "a@x.com")) dbOneUser).2.products
      = [⟨1, "Widget", "", -5, "", 1, 0, 0⟩] := by
  constructor
  · rfl
  · decide

/-- C3 amended: for every authenticated CreateProduct call, the Validation
Error fault is raised exactly when the name is missing/empty or the price is
missing or ZERO (Python falsiness); otherwise — negative prices included —
the call succeeds and appends the product row with the supplied price,
owned by the caller. -/
theorem c3_create_product_validation (sign : TokenPayload → String) (now : Nat)
    (input : ProductInput) (token : Option Jwt) (db : DB) (payload : TokenPayload)
    (hauth : authenticate_user sign now token = .ok payload) :
    ((CreateProduct sign now input token db).1
        = .error (validationFault "Name and price are required")
      ↔ ostr input.name = "" ∨ onum input.price = 0) ∧
    ((CreateProduct sign now input token db).1.isOk = true
      ↔ ¬(ostr input.name = "" ∨ onum input.price = 0)) ∧
    (¬(ostr input.name = "" ∨ onum input.price = 0) →
      (CreateProduct sign now input token db).2.products
        = db.products ++ [⟨db.nextProductId, ostr input.name, ostr input.description,
            onum input.price, ostr input.image_url, payload.user_id, now, now⟩]) := by
  unfold CreateProduct
  rw [hauth]
  dsimp only
  by_cases hcond : ostr input.name = "" ∨ onum input.price = 0
  · rw [if_pos hcond]
    refine ⟨⟨fun _ => hcond, fun _ => rfl⟩, iff_of_false ?_ (fun hn => hn hcond),
      fun hn => absurd hcond hn⟩
    intro h
    simp [Except.isOk, Except.toBool] at h
  · rw [if_neg hcond]
    have hsome : (get_product_by_id
        { db with products := db.products ++ [⟨db.nextProductId, ostr input.name,
            ostr input.description, onum input.price, ostr input.image_url,
            payload.user_id, now, now⟩], nextProductId := db.nextProductId + 1 }
        db.nextProductId).isSome := by
      apply List.find?_isSome.mpr
      refine ⟨_, List.mem_append_right _ (List.mem_singleton_self _), ?_⟩
      simp
    obtain ⟨p, hp⟩ := Option.isSome_iff_exists.mp hsome
    rw [hp]
    dsimp only
    refine ⟨⟨fun h => Except.noConfusion h, fun h => absurd h hcond⟩,
      iff_of_true rfl hcond, fun _ => rfl⟩

/-- C8: for every successful UpdateProduct on an existing product, the
product row afterwards keeps its id, its owner (`user_id`) and its
`created_at` unchanged; only name, description, price, image_url and
`updated_at` can have been touched by the UPDATE. -/
theorem c8_update_product_frame (sign : TokenPayload → String) (now : Nat)
    (product_id : Nat) (upd : ProductUpdateInput) (token : Option Jwt)
    (db db' : DB) (p v : ProductRow)
    (hp : get_product_by_id db product_id = some p)
    (hok : UpdateProduct sign now product_id upd token db = (.ok v, db')) :
    ∃ p', get_product_by_id db' product_id = some p' ∧
      p'.id = p.id ∧ p'.user_id = p.user_id ∧ p'.created_at = p.created_at := by
  unfold UpdateProduct at hok
  cases hauth : authenticate_user sign now token with
  | error f =>
    rw [hauth] at hok
    exact absurd (congrArg Prod.fst hok) (by simp)
  | ok payload =>
    rw [hauth] at hok
    dsimp only at hok
    rw [hp] at hok
    dsimp only at hok
    by_cases hown : p.user_id ≠ payload.user_id
    · rw [if_pos hown] at hok
      exact absurd (congrArg Prod.fst hok) (by simp)
    · rw [if_neg hown] at hok
      have hp2 := hp
      unfold get_product_by_id at hp2
      set ps := db.products.map
        (fun q => if q.id == product_id then updateProductRow now upd q else q) with hps
      have hfind : get_product_by_id { db with products := ps } product_id
          = some (updateProductRow now upd p) := by
        unfold get_product_by_id
        dsimp only
        rw [hps, find?_id_map (fun q => q.id) product_id (updateProductRow now upd)
          (fun q => (updateProductRow_frame now upd q).1) db.products, hp2]
        have hpt : p.id = product_id := by simpa using List.find?_some hp2
        simp [hpt]
      rw [hfind] at hok
      dsimp only at hok
      have hdb : db' = { db with products := ps } := (congrArg Prod.snd hok).symm
      subst hdb
      exact ⟨updateProductRow now upd p, hfind,
        (updateProductRow_frame now upd p).1,
        (updateProductRow_frame now upd p).2.1,
        (updateProductRow_frame now upd p).2.2⟩

/-- C8 witness: owner 1 renames product 1 in `dbShop`; the stored row keeps
id 1, owner 1 and created_at 0. -/
theorem c8_witness :
    ∃ p', get_product_by_id { dbShop with products := [⟨1, "W2", "", 10, "", 1, 0, 7⟩] } 1
        = some p' ∧ p'.id = 1 ∧ p'.user_id = 1 ∧ p'.created_at = 0 :=
  c8_update_product_frame sign0 7 1 ⟨some "W2", none, none, none⟩
    (some (jwtFor 1 "a@x.com")) dbShop
    { dbShop with products := [⟨1, "W2", "", 10, "", 1, 0, 7⟩] }
    ⟨1, "Widget", "", 10, "", 1, 0, 0⟩ ⟨1, "W2", "", 10, "", 1, 0, 7⟩
    rfl rfl

/-- C3 witness for the amended theorem: an authenticated CreateProduct with
name "Widget" and price 3 appends exactly the corresponding product row. -/
theorem c3_witness :
    (CreateProduct sign0 0 ⟨some "Widget", none, some (3 : ℚ), none⟩
        (some (jwtFor 1 "a@x.com")) dbOneUser).2.products
      = dbOneUser.products ++ [⟨1, "Widget", "", 3, "", 1, 0, 0⟩] :=
  (c3_create_product_validation sign0 0 ⟨some "Widget", none, some (3 : ℚ), none⟩
    (some (jwtFor 1 "a@x.com")) dbOneUser ⟨1, "a@x.com", 86400⟩ rfl).2.2 (by decide)

/-- C7: for every authenticated caller, every order GetAllOrders returns is
owned by the caller's token user id, and the result depends only on the
caller's own order rows and the products those rows reference: two stores
agreeing on these return identical results, whatever orders other users own. -/
theorem c7_get_all_orders_noninterference (sign : TokenPayload → String) (now : Nat)
    (token : Option Jwt) (db1 db2 : DB) (payload : TokenPayload)
    (hauth : authenticate_user sign now token = .ok payload)
    (hOrders : db1.orders.filter (fun o => o.user_id == payload.user_id)
             = db2.orders.filter (fun o => o.user_id == payload.user_id))
    (hProds : ∀ o ∈ db1.orders.filter (fun o => o.user_id == payload.user_id),
        db1.products.find? (fun p => p.id == o.product_id)
          = db2.products.find? (fun p => p.id == o.product_id)) :
    (∀ vs, GetAllOrders sign now token db1 = .ok vs →
        ∀ v ∈ vs, v.user_id = payload.user_id) ∧
    GetAllOrders sign now token db1 = GetAllOrders sign now token db2 := by
  unfold GetAllOrders
  rw [hauth]
  dsimp only
  constructor
  · intro vs hvs v hv
    injection hvs with h
    subst h
    obtain ⟨o, ho, hfo⟩ := List.mem_filterMap.mp hv
    by_cases hc : (o.user_id == payload.user_id) = true
    · rw [if_pos hc] at hfo
      unfold orderJoin at hfo
      obtain ⟨p, _, hbuild⟩ := Option.map_eq_some'.mp hfo
      have : v.user_id = o.user_id := by rw [← hbuild]
      rw [this]
      exact beq_iff_eq.mp hc
    · rw [if_neg hc] at hfo
      exact Option.noConfusion hfo
  · rw [← List.filterMap_filter, ← List.filterMap_filter, hOrders]
    congr 1
    apply List.filterMap_congr
    intro o ho
    have ho1 : o ∈ db1.orders.filter (fun o => o.user_id == payload.user_id) := by
      rw [hOrders]; exact ho
    unfold orderJoin
    rw [hProds o ho1]

/-- C7 witness: user 1's GetAllOrders result over `dbShop` is unchanged when a
foreign order (owned by user 2) is added to the store (`dbShopNoisy`). -/
theorem c7_witness :
    GetAllOrders sign0 0 (some (jwtFor 1 "a@x.com")) dbShop
      = GetAllOrders sign0 0 (some (jwtFor 1 "a@x.com")) dbShopNoisy :=
  (c7_get_all_orders_noninterference sign0 0 (some (jwtFor 1 "a@x.com")) dbShop dbShopNoisy
    ⟨1, "a@x.com", 86400⟩ rfl (by decide) (by decide)).2

/-- Helper: a status value outside the enumerated set (or empty/missing)
leaves the stored status untouched. -/
theorem updateOrderRow_status_invalid (now : Nat) (products : List ProductRow)
    (prePid : Nat) (upd : OrderUpdateInput) (o : OrderRow)
    (hns : ¬(¬ ostr upd.status = "" ∧ (ostr upd.status = "pending"
        ∨ ostr upd.status = "completed" ∨ ostr upd.status = "cancelled"))) :
    (updateOrderRow now products prePid upd o).status = o.status := by
  simp only [updateOrderRow]
  split_ifs <;> rfl

/-- Helper: a missing, zero or negative quantity leaves quantity and
total_price untouched. -/
theorem updateOrderRow_qty_invalid (now : Nat) (products : List ProductRow)
    (prePid : Nat) (upd : OrderUpdateInput) (o : OrderRow)
    (hnq : ¬(¬ upd.quantity.getD 0 = 0 ∧ 1 ≤ upd.quantity.getD 0)) :
    (updateOrderRow now products prePid upd o).quantity = o.quantity ∧
    (updateOrderRow now products prePid upd o).total_price = o.total_price := by
  constructor <;> (simp only [updateOrderRow]; split_ifs <;> rfl)

/-- Helper: a valid quantity is applied and total_price is recomputed from
the product's current price. -/
theorem updateOrderRow_qty_valid (now : Nat) (products : List ProductRow)
    (prePid : Nat) (upd : OrderUpdateInput) (o : OrderRow) (p : ProductRow)
    (hq : ¬ upd.quantity.getD 0 = 0 ∧ 1 ≤ upd.quantity.getD 0)
    (hp : products.find? (fun pp => pp.id == prePid) = some p) :
    (updateOrderRow now products prePid upd o).quantity = upd.quantity.getD 0 ∧
    (updateOrderRow now products prePid upd o).total_price
      = p.price * ((upd.quantity.getD 0 : Int) : ℚ) := by
  constructor <;> simp only [updateOrderRow] <;> split_ifs <;>
    first
      | rfl
      | exact absurd hq (by assumption)
      | exact absurd (Or.inl hq) (by assumption)
      | (rw [hp])

/-- Helper: a status value inside the enumerated set is applied. -/
theorem updateOrderRow_status_valid (now : Nat) (products : List ProductRow)
    (prePid : Nat) (upd : OrderUpdateInput) (o : OrderRow)
    (hsv : ¬ ostr upd.status = "" ∧ (ostr upd.status = "pending"
        ∨ ostr upd.status = "completed" ∨ ostr upd.status = "cancelled")) :
    (updateOrderRow now products prePid upd o).status = ostr upd.status := by
  simp only [updateOrderRow]
  split_ifs <;>
    first
      | rfl
      | exact absurd hsv (by assumption)
      | exact absurd (Or.inr hsv) (by assumption)

/-- C6: for every owner UpdateOrder call on an existing order, no fault is
raised: a supplied status outside {pending, completed, cancelled} (or
missing/empty) is silently dropped and the stored status is unchanged; a
supplied quantity below 1 (or missing) is likewise dropped, leaving quantity
and total_price unchanged; and any validly supplied field in the same call
still takes effect — a status in the enumerated set is stored, and a
quantity ≥ 1 is stored with total_price recomputed. -/
theorem c6_update_order_silently_drops_invalid (sign : TokenPayload → String) (now : Nat)
    (order_id : Nat) (upd : OrderUpdateInput) (token : Option Jwt)
    (db : DB) (payload : TokenPayload) (row : OrderRow) (prod : ProductRow)
    (hauth : authenticate_user sign now token = .ok payload)
    (hrow : db.orders.find? (fun o => o.id == order_id) = some row)
    (hown : row.user_id = payload.user_id)
    (hprod : db.products.find? (fun p => p.id == row.product_id) = some prod) :
    ∃ v db', UpdateOrder sign now order_id upd token db = (.ok v, db') ∧
      ∃ r', db'.orders.find? (fun o => o.id == order_id) = some r' ∧
        (¬(ostr upd.status = "pending" ∨ ostr upd.status = "completed"
            ∨ ostr upd.status = "cancelled") → r'.status = row.status) ∧
        (∀ s, upd.status = some s →
          (s = "pending" ∨ s = "completed" ∨ s = "cancelled") → r'.status = s) ∧
        (upd.quantity.getD 0 < 1 → r'.quantity = row.quantity ∧
          r'.total_price = row.total_price) ∧
        (∀ q, upd.quantity = some q → 1 ≤ q →
          r'.quantity = q ∧ r'.total_price = prod.price * (q : ℚ)) := by
  unfold UpdateOrder
  rw [hauth]
  dsimp only
  rw [hrow]
  dsimp only
  rw [if_neg (fun hne => hne hown)]
  set r' := updateOrderRow now db.products row.product_id upd row with hr'
  set os := db.orders.map (fun o =>
    if o.id == order_id then updateOrderRow now db.products row.product_id upd o else o)
    with hos
  have hfind : os.find? (fun o => o.id == order_id) = some r' := by
    rw [hos, find?_id_map (fun o => o.id) order_id
      (updateOrderRow now db.products row.product_id upd)
      (fun o => updateOrderRow_id now db.products row.product_id upd o)
      db.orders, hrow]
    have hrt : row.id = order_id := by simpa using List.find?_some hrow
    simp [hrt, hr']
  have hjoin : getOrderJoined { db with orders := os } order_id
      = some ⟨r'.id, r'.user_id, r'.product_id, r'.quantity, r'.total_price, r'.status,
              r'.created_at, r'.updated_at, prod⟩ := by
    unfold getOrderJoined
    rw [hfind]
    unfold orderJoin
    simp only [Option.some_bind, hr', updateOrderRow_product_id, hprod, Option.map_some]
    rfl
  rw [hjoin]
  dsimp only
  refine ⟨_, _, rfl, r', hfind, ?_, ?_, ?_, ?_⟩
  · intro hinv
    exact updateOrderRow_status_invalid now db.products row.product_id upd row
      (fun hc => hinv hc.2)
  · intro s hs henum
    have hss : ostr upd.status = s := by rw [hs]; rfl
    have hsne : ¬ ostr upd.status = "" := by
      rw [hss]
      rcases henum with h | h | h <;> simp [h]
    have := updateOrderRow_status_valid now db.products row.product_id upd row
      ⟨hsne, by rw [hss]; exact henum⟩
    rw [hr', this, hss]
  · intro hlt
    exact updateOrderRow_qty_invalid now db.products row.product_id upd row
      (fun hc => absurd hc.2 (by omega))
  · intro q hq hge
    have hqq : upd.quantity.getD 0 = q := by rw [hq]; rfl
    have := updateOrderRow_qty_valid now db.products row.product_id upd row prod
      ⟨by omega, by omega⟩ hprod
    rw [hr']
    constructor
    · rw [this.1, hqq]
    · rw [this.2, hqq]

/-- C6 witness: owner 1 updates order 1 of `dbShop` with the invalid
quantity 0 and the VALID status "completed": no fault, the quantity and
total_price stay 2 and 20, and the valid status takes effect. -/
theorem c6_witness :
    ∃ v db', UpdateOrder sign0 9 1 ⟨some 0, some "completed"⟩
        (some (jwtFor 1 "a@x.com")) dbShop = (.ok v, db') ∧
      ∃ r', db'.orders.find? (fun o => o.id == 1) = some r' ∧
        (¬(ostr (some "completed") = "pending" ∨ ostr (some "completed") = "completed"
            ∨ ostr (some "completed") = "cancelled") → r'.status = "pending") ∧
        (∀ s, (some "completed" : Option String) = some s →
          (s = "pending" ∨ s = "completed" ∨ s = "cancelled") → r'.status = s) ∧
        ((some (0 : Int)).getD 0 < 1 → r'.quantity = 2 ∧ r'.total_price = 20) ∧
        (∀ q, (some (0 : Int) : Option Int) = some q → 1 ≤ q →
          r'.quantity = q ∧
          r'.total_price = (⟨1, "Widget", "", 10, "", 1, 0, 0⟩ : ProductRow).price * (q : ℚ)) :=
  c6_update_order_silently_drops_invalid sign0 9 1 ⟨some 0, some "completed"⟩
    (some (jwtFor 1 "a@x.com")) dbShop ⟨1, "a@x.com", 86400⟩ ⟨1, 1, 1, 2, 20, "pending", 0, 0⟩
    ⟨1, "Widget", "", 10, "", 1, 0, 0⟩ rfl rfl rfl rfl

/-- C2: for every authenticated CreateOrder on an existing product, the
created order row and the returned view carry
total_price = product.price × quantity from the product's price as stored at
creation time; and for every owner UpdateOrder supplying a quantity ≥ 1,
total_price is recomputed as quantity × the product's price as currently
stored at update time (whatever price the order was created under). -/
theorem c2_order_total_price (sign : TokenPayload → String) :
    (∀ (now pid : Nat) (q : Int) (token : Option Jwt) (db : DB)
        (payload : TokenPayload) (prod : ProductRow) (v : OrderView) (db' : DB),
      authenticate_user sign now token = .ok payload →
      pid ≠ 0 → 1 ≤ q →
      get_product_by_id db pid = some prod →
      (∀ o ∈ db.orders, o.id ≠ db.nextOrderId) →
      CreateOrder sign now ⟨some pid, some q⟩ token db = (.ok v, db') →
      v.total_price = prod.price * (q : ℚ) ∧
        db'.orders = db.orders ++ [⟨db.nextOrderId, payload.user_id, pid, q,
          prod.price * (q : ℚ), "pending", now, now⟩]) ∧
    (∀ (now oid : Nat) (q : Int) (st : Option String) (token : Option Jwt) (db : DB)
        (payload : TokenPayload) (row : OrderRow) (prod : ProductRow)
        (v : OrderView) (db' : DB),
      authenticate_user sign now token = .ok payload →
      db.orders.find? (fun o => o.id == oid) = some row →
      row.user_id = payload.user_id →
      1 ≤ q →
      db.products.find? (fun p => p.id == row.product_id) = some prod →
      UpdateOrder sign now oid ⟨some q, st⟩ token db = (.ok v, db') →
      v.total_price = prod.price * (q : ℚ) ∧
        ∃ r', db'.orders.find? (fun o => o.id == oid) = some r' ∧
          r'.total_price = prod.price * (q : ℚ) ∧ r'.quantity = q) := by
  constructor
  · intro now pid q token db payload prod v db' hauth hpid hq hprod hfresh hok
    unfold CreateOrder at hok
    rw [hauth] at hok
    dsimp only at hok
    simp only [Option.getD_some] at hok
    rw [if_neg (show ¬(pid = 0 ∨ q = 0 ∨ q < 1) by
      push_neg; exact ⟨hpid, by omega, by omega⟩)] at hok
    rw [hprod] at hok
    dsimp only at hok
    set row : OrderRow := ⟨db.nextOrderId, payload.user_id, pid, q,
      prod.price * (q : ℚ), "pending", now, now⟩ with hrowdef
    have hjoin : getOrderJoined
        { db with orders := db.orders ++ [row], nextOrderId := db.nextOrderId + 1 }
        db.nextOrderId
        = some ⟨row.id, row.user_id, row.product_id, row.quantity, row.total_price,
               row.status, row.created_at, row.updated_at, prod⟩ := by
      unfold getOrderJoined
      dsimp only
      rw [find?_append_none _ _ _ (List.find?_eq_none.mpr
        (fun o ho => by simp [hfresh o ho]))]
      have : [row].find? (fun o => o.id == db.nextOrderId) = some row := by
        simp [hrowdef]
      rw [this]
      unfold orderJoin
      unfold get_product_by_id at hprod
      simp only [Option.some_bind, hrowdef, hprod, Option.map_some]
      rfl
    rw [hjoin] at hok
    dsimp only at hok
    have hv : v = ⟨row.id, row.user_id, row.product_id, row.quantity, row.total_price,
               row.status, row.created_at, row.updated_at, prod⟩ := by
      have := congrArg Prod.fst hok
      dsimp at this
      injection this with h
      exact h.symm
    have hdb :
        db' = { db with orders := db.orders ++ [row], nextOrderId := db.nextOrderId + 1 } :=
      (congrArg Prod.snd hok).symm
    subst hdb
    exact ⟨by rw [hv], rfl⟩
  · intro now oid q st token db payload row prod v db' hauth hrow hown hq hprod hok
    unfold UpdateOrder at hok
    rw [hauth] at hok
    dsimp only at hok
    rw [hrow] at hok
    dsimp only at hok
    rw [if_neg (fun hne => hne hown)] at hok
    set r' := updateOrderRow now db.products row.product_id ⟨some q, st⟩ row with hr'
    set os := db.orders.map (fun o =>
      if o.id == oid then updateOrderRow now db.products row.product_id ⟨some q, st⟩ o else o)
      with hos
    have hfind : os.find? (fun o => o.id == oid) = some r' := by
      rw [hos, find?_id_map (fun o => o.id) oid
        (updateOrderRow now db.products row.product_id ⟨some q, st⟩)
        (fun o => updateOrderRow_id now db.products row.product_id ⟨some q, st⟩ o)
        db.orders, hrow]
      have hrt : row.id = oid := by simpa using List.find?_some hrow
      simp [hrt, hr']
    have hjoin : getOrderJoined { db with orders := os } oid
        = some ⟨r'.id, r'.user_id, r'.product_id, r'.quantity, r'.total_price, r'.status,
                r'.created_at, r'.updated_at, prod⟩ := by
      unfold getOrderJoined
      rw [hfind]
      unfold orderJoin
      simp only [Option.some_bind, hr', updateOrderRow_product_id, hprod, Option.map_some]
      rfl
    rw [hjoin] at hok
    dsimp only at hok
    have hqv := updateOrderRow_qty_valid now db.products row.product_id ⟨some q, st⟩ row prod
      ⟨fun h0 => by have hq0 : q = 0 := h0; omega, hq⟩ hprod
    have hv : v = ⟨r'.id, r'.user_id, r'.product_id, r'.quantity, r'.total_price, r'.status,
                r'.created_at, r'.updated_at, prod⟩ := by
      have := congrArg Prod.fst hok
      dsimp at this
      injection this with h
      exact h.symm
    have hdb : db' = { db with orders := os } := (congrArg Prod.snd hok).symm
    subst hdb
    refine ⟨?_, r', hfind, hqv.2, hqv.1⟩
    rw [hv]
    exact hqv.2

/-- C2 witness: on `dbShop` (product 1 priced 10), CreateOrder(product 1,
quantity 3) yields total 10·3 and appends the corresponding row; an owner
UpdateOrder(quantity 5) of order 1 stores total 10·5 from the current price. -/
theorem c2_witness :
    (newOrderView.total_price
        = (⟨1, "Widget", "", 10, "", 1, 0, 0⟩ : ProductRow).price * ((3 : Int) : ℚ) ∧
      dbShopAfterCreate.orders = dbShop.orders ++ [⟨2, 1, 1, 3,
        (⟨1, "Widget", "", 10, "", 1, 0, 0⟩ : ProductRow).price * ((3 : Int) : ℚ),
        "pending", 4, 4⟩]) ∧
    (updOrderView.total_price
        = (⟨1, "Widget", "", 10, "", 1, 0, 0⟩ : ProductRow).price * ((5 : Int) : ℚ) ∧
      ∃ r', dbShopAfterUpdate.orders.find? (fun o => o.id == 1) = some r' ∧
        r'.total_price = (⟨1, "Widget", "", 10, "", 1, 0, 0⟩ : ProductRow).price * ((5 : Int) : ℚ) ∧
        r'.quantity = 5) :=
  ⟨(c2_order_total_price sign0).1 4 1 3 (some (jwtFor 1 "a@x.com")) dbShop ⟨1, "a@x.com", 86400⟩
     ⟨1, "Widget", "", 10, "", 1, 0, 0⟩ newOrderView dbShopAfterCreate
     rfl (by decide) (by decide) rfl (by decide) rfl,
   (c2_order_total_price sign0).2 9 1 5 none (some (jwtFor 1 "a@x.com")) dbShop ⟨1, "a@x.com", 86400⟩
     ⟨1, 1, 1, 2, 20, "pending", 0, 0⟩ ⟨1, "Widget", "", 10, "", 1, 0, 0⟩ updOrderView dbShopAfterUpdate
     rfl rfl rfl (by decide) rfl rfl⟩

/-- Helper: the full success path of `CreateUser` for a fresh valid email and
a password of length ≥ 8: the row is inserted with role 'user', the name
defaulted from the email, and the view of the inserted row returned. -/
theorem CreateUser_success (hash : String → String) (now : Nat) (e pw : String)
    (nameOpt : Option String) (db : DB)
    (he : e ≠ "") (hpw : 8 ≤ pw.length)
    (hnew : ∀ u ∈ db.users, u.email ≠ e)
    (hfresh : ∀ u ∈ db.users, u.id ≠ db.nextUserId) :
    CreateUser hash now ⟨some e, some pw, nameOpt⟩ db
      = (.ok (userView ⟨db.nextUserId, e, hash pw,
            if ostr nameOpt = "" then emailLocalPart e else ostr nameOpt, "user", now, now⟩),
         { db with users := db.users ++ [⟨db.nextUserId, e, hash pw,
            if ostr nameOpt = "" then emailLocalPart e else ostr nameOpt, "user", now, now⟩], nextUserId := db.nextUserId + 1 }) := by
  have hpwne : pw ≠ "" := by
    intro h
    rw [h] at hpw
    simp at hpw
  unfold CreateUser
  simp only [ostr, Option.getD_some]
  rw [if_neg (by push_neg; exact ⟨he, hpwne⟩)]
  rw [if_neg (by omega)]
  have hdup : db.users.find? (fun u => u.email == e) = none :=
    List.find?_eq_none.mpr (fun u hu => by simp [hnew u hu])
  rw [hdup]
  rw [if_neg (by simp)]
  have hread : get_user_by_id { db with users := db.users ++ [⟨db.nextUserId, e, hash pw,
      if nameOpt.getD "" = "" then emailLocalPart e else nameOpt.getD "", "user", now, now⟩], nextUserId := db.nextUserId + 1 } db.nextUserId
      = some ⟨db.nextUserId, e, hash pw,
          if nameOpt.getD "" = "" then emailLocalPart e else nameOpt.getD "", "user", now, now⟩ := by
    unfold get_user_by_id
    dsimp only
    rw [find?_append_none _ _ _ (List.find?_eq_none.mpr (fun u hu => by simp [hfresh u hu]))]
    simp
  rw [hread]

/-- C5: for every unregistered nonempty email and every password of length
≥ 8, CreateUser succeeds, and a subsequent Login with the same credentials
(no intervening mutation) succeeds and returns a token whose verified claims
carry exactly the user id CreateUser returned. -/
theorem c5_create_user_then_login_roundtrip (hash : String → String)
    (sign : TokenPayload → String) (nowC nowL : Nat) (e pw : String)
    (nameOpt : Option String) (db : DB)
    (he : e ≠ "") (hpw : 8 ≤ pw.length)
    (hnew : ∀ u ∈ db.users, u.email ≠ e)
    (hfresh : ∀ u ∈ db.users, u.id ≠ db.nextUserId) :
    ∃ v db', CreateUser hash nowC ⟨some e, some pw, nameOpt⟩ db = (.ok v, db') ∧
      ∃ uwt, Login hash sign nowL ⟨some e, some pw⟩ db' = .ok uwt ∧
        (verify_token sign nowL uwt.token).map (fun p => p.user_id) = some v.id := by
  have hpwne : pw ≠ "" := by
    intro h
    rw [h] at hpw
    simp at hpw
  refine ⟨_, _, CreateUser_success hash nowC e pw nameOpt db he hpw hnew hfresh, ?_⟩
  unfold Login
  simp only [ostr, Option.getD_some]
  rw [if_neg (by push_neg; exact ⟨he, hpwne⟩)]
  dsimp only
  set nm := (if nameOpt.getD "" = "" then emailLocalPart e else nameOpt.getD "") with hnm
  set row : UserRow := ⟨db.nextUserId, e, hash pw, nm, "user", nowC, nowC⟩ with hrow
  have hdup : db.users.find? (fun u => u.email == e) = none :=
    List.find?_eq_none.mpr (fun u hu => by simp [hnew u hu])
  rw [find?_append_none _ _ _ hdup]
  rw [show [row].find? (fun u => u.email == e) = some row by simp [hrow]]
  dsimp only
  rw [if_pos (show verify_password hash pw row.password_hash = true by
    simp [verify_password, hrow])]
  refine ⟨_, rfl, ?_⟩
  unfold verify_token generate_token
  dsimp only
  rw [if_pos ⟨rfl, by omega⟩]
  rfl

/-- C5 witness: creating new@y.com with password longpass1 in `dbOneUser`,
then logging in with the same credentials, returns a token whose verified
claims carry the created user's id. -/
theorem c5_witness :
    ∃ v db', CreateUser hash0 2 ⟨some "new@y.com", some "longpass1", none⟩ dbOneUser
        = (.ok v, db') ∧
      ∃ uwt, Login hash0 sign0 3 ⟨some "new@y.com", some "longpass1"⟩ db' = .ok uwt ∧
        (verify_token sign0 3 uwt.token).map (fun p => p.user_id) = some v.id :=
  c5_create_user_then_login_roundtrip hash0 sign0 2 3 "new@y.com" "longpass1" none dbOneUser
    (by decide) (by decide) (by decide) (by decide)

/-- C10: a CreateUser call with a valid unregistered email, a password of
length ≥ 8 and a missing or empty name succeeds, and the created user's name
is the text of the email before its first '@'. -/
theorem c10_create_user_default_name (hash : String → String) (now : Nat)
    (e pw : String) (nameOpt : Option String) (db : DB)
    (he : e ≠ "") (hpw : 8 ≤ pw.length) (hname : ostr nameOpt = "")
    (hnew : ∀ u ∈ db.users, u.email ≠ e)
    (hfresh : ∀ u ∈ db.users, u.id ≠ db.nextUserId) :
    ∃ v db', CreateUser hash now ⟨some e, some pw, nameOpt⟩ db = (.ok v, db') ∧
      v.name = emailLocalPart e := by
  refine ⟨_, _, CreateUser_success hash now e pw nameOpt db he hpw hnew hfresh, ?_⟩
  simp [userView, hname]

/-- C10 witness: creating john@y.com with no name in `dbOneUser` yields a
user named after the email's local part. -/
theorem c10_witness :
    ∃ v db', CreateUser hash0 2 ⟨some "john@y.com", some "longpass1", none⟩ dbOneUser
        = (.ok v, db') ∧ v.name = emailLocalPart "john@y.com" :=
  c10_create_user_default_name hash0 2 "john@y.com" "longpass1" none dbOneUser
    (by decide) (by decide) rfl (by decide) (by decide)

/-- C4: CreateUser on an otherwise-valid request whose email some live user
already carries (case-sensitive match) yields the Email Already Registered
fault and leaves the user table untouched (GetAllUsers unchanged); and the
invariant that no two live users share an email is preserved by every
mutating operation — CreateUser (duplicate check), UpdateUser (emails never
rewritten), DeleteUser (sublist), and all product/order operations (which
never touch the users table). -/
theorem c4_email_uniqueness (hash : String → String) (sign : TokenPayload → String) (now : Nat) :
    (∀ (e pw : String) (nameOpt : Option String) (db : DB),
       e ≠ "" → 8 ≤ pw.length → (∃ u ∈ db.users, u.email = e) →
       CreateUser hash now ⟨some e, some pw, nameOpt⟩ db = (.error emailRegisteredFault, db) ∧
       GetAllUsers (CreateUser hash now ⟨some e, some pw, nameOpt⟩ db).2 = GetAllUsers db) ∧
    (∀ input db, EmailsNodup db → EmailsNodup (CreateUser hash now input db).2) ∧
    (∀ uid upd token db, EmailsNodup db → EmailsNodup (UpdateUser hash sign now uid upd token db).2) ∧
    (∀ uid token db, EmailsNodup db → EmailsNodup (DeleteUser sign now uid token db).2) ∧
    (∀ input token db, ((CreateProduct sign now input token db).2).users = db.users) ∧
    (∀ pid upd token db, ((UpdateProduct sign now pid upd token db).2).users = db.users) ∧
    (∀ pid token db, ((DeleteProduct sign now pid token db).2).users = db.users) ∧
    (∀ input token db, ((CreateOrder sign now input token db).2).users = db.users) ∧
    (∀ oid upd token db, ((UpdateOrder sign now oid upd token db).2).users = db.users) ∧
    (∀ oid token db, ((DeleteOrder sign now oid token db).2).users = db.users) := by
  refine ⟨?_, ?_, ?_, ?_, ?_, ?_, ?_, ?_, ?_, ?_⟩
  · intro e pw nameOpt db he hpw hdup
    obtain ⟨u, hu, hue⟩ := hdup
    have hpwne : pw ≠ "" := by
      intro h
      rw [h] at hpw
      simp at hpw
    have heq : CreateUser hash now ⟨some e, some pw, nameOpt⟩ db
        = (.error emailRegisteredFault, db) := by
      unfold CreateUser
      simp only [ostr, Option.getD_some]
      rw [if_neg (by push_neg; exact ⟨he, hpwne⟩)]
      rw [if_neg (by omega)]
      rw [if_pos (by
        apply List.find?_isSome.mpr
        exact ⟨u, hu, by simp [hue]⟩)]
    exact ⟨heq, by rw [heq]⟩
  · intro input db hnd
    unfold CreateUser
    split
    · exact hnd
    · split
      · exact hnd
      · split
        · exact hnd
        · rename_i hdup
          have hnone : db.users.find? (fun u => u.email == ostr input.email) = none :=
            Option.not_isSome_iff_eq_none.mp (by simpa using hdup)
          have hnd2 : (db.users ++ [(⟨db.nextUserId, ostr input.email, hash (ostr input.password), (if ostr input.name = "" then emailLocalPart (ostr input.email) else ostr input.name), "user", now, now⟩ : UserRow)]).Pairwise (fun a b => a.email ≠ b.email) := by
            refine List.pairwise_append.mpr ⟨hnd, List.pairwise_singleton _ _, ?_⟩
            intro a ha b hb
            simp only [List.mem_singleton] at hb
            subst hb
            have := List.find?_eq_none.mp hnone a ha
            simpa using this
          dsimp only
          split
          · exact hnd2
          · exact hnd2
  · intro uid upd token db hnd
    unfold UpdateUser
    have hpres : (db.users.map (fun u => if u.id == uid then updateUserRow hash now upd u else u)).Pairwise (fun a b => a.email ≠ b.email) := by
      refine List.Pairwise.map _ ?_ hnd
      intro a b hab
      have ha : ((if a.id == uid then updateUserRow hash now upd a else a)).email = a.email := by
        by_cases h : (a.id == uid) = true <;> simp [h, updateUserRow_email]
      have hb : ((if b.id == uid then updateUserRow hash now upd b else b)).email = b.email := by
        by_cases h : (b.id == uid) = true <;> simp [h, updateUserRow_email]
      rw [ha, hb]
      exact hab
    split
    · exact hnd
    · split
      · exact hnd
      · split
        · exact hnd
        · split
          · exact hnd
          · dsimp only
            split
            · exact hpres
            · exact hpres
  · intro uid token db hnd
    unfold DeleteUser
    split
    · exact hnd
    · split
      · exact hnd
      · split
        · exact hnd
        · exact hnd.sublist (List.filter_sublist _)
  · intro input token db
    unfold CreateProduct
    split
    · rfl
    · split
      · rfl
      · dsimp only
        split <;> rfl
  · intro pid upd token db
    unfold UpdateProduct
    split
    · rfl
    · split
      · rfl
      · split
        · rfl
        · dsimp only
          split <;> rfl
  · intro pid token db
    unfold DeleteProduct
    split
    · rfl
    · split
      · rfl
      · split <;> rfl
  · intro input token db
    unfold CreateOrder
    split
    · rfl
    · split
      · rfl
      · split
        · rfl
        · dsimp only
          split <;> rfl
  · intro oid upd token db
    unfold UpdateOrder
    split
    · rfl
    · split
      · rfl
      · split
        · rfl
        · dsimp only
          split <;> rfl
  · intro oid token db
    unfold DeleteOrder
    split
    · rfl
    · split
      · rfl
      · split <;> rfl


/-- C4 witness: re-registering a@x.com (already present in `dbOneUser`) with
a valid password yields exactly the Email Already Registered fault and an
unchanged store. -/
theorem c4_witness :
    CreateUser hash0 6 ⟨some "a@x.com", some "longpass1", none⟩ dbOneUser
        = (.error emailRegisteredFault, dbOneUser) ∧
    GetAllUsers (CreateUser hash0 6 ⟨some "a@x.com", some "longpass1", none⟩ dbOneUser).2
        = GetAllUsers dbOneUser :=
  (c4_email_uniqueness hash0 sign0 6).1 "a@x.com" "longpass1" none dbOneUser
    (by decide) (by decide) ⟨⟨1, "a@x.com", "h1", "A", "user", 0, 0⟩, by decide, rfl⟩

end CumRoad
